import Mathlib

/-!
Verification of the vicepython-core library: a shallow embedding of the
`Result`/`Option` algebraic data types from `src/vicepython_core/types.py`
and the pure combinators from `src/vicepython_core/result.py` and
`src/vicepython_core/option.py`, with theorems settling the specification's
claims about them.
-/

namespace VicePythonCore

/-- Embedding of `type Result[T, E] = Ok[T] | Err[E]` from
`src/vicepython_core/types.py`: `Ok` holds a success value, `Err` holds an
error value. The Python `kind` field is a pattern-matching artifact fully
determined by the variant, so the tagged union carries only the payloads. -/
inductive Result (T E : Type) where
  | Ok (value : T) : Result T E
  | Err (error : E) : Result T E
deriving DecidableEq

/-- Embedding of `type Option[T] = Some[T] | Nothing` from
`src/vicepython_core/types.py`: `Some` holds a value, `Nothing` holds none.
As in the source, the `kind` field is determined by the variant and omitted. -/
inductive Option (T : Type) where
  | Some (value : T) : Option T
  | Nothing : Option T
deriving DecidableEq

/-- Embedding of Python's nullable type `T | None`: `null` is Python's `None`,
`val v` is a non-`None` value `v`. This is the input type of
`option_from_optional`. -/
inductive Optional (T : Type) where
  | null : Optional T
  | val (v : T) : Optional T
deriving DecidableEq

namespace result

variable {T U E F : Type}

/-- Embedding of `map_ok` from `src/vicepython_core/result.py`: apply `f` to
the value inside `Ok`, leave `Err` unchanged. (The Python `Err` branch returns
the input object itself; in the typed embedding the branch rebuilds the same
`Err e`.) -/
def map_ok (result : Result T E) (f : T → U) : Result U E :=
  match result with
  | .Ok value => .Ok (f value)
  | .Err e => .Err e

/-- Embedding of `and_then` from `src/vicepython_core/result.py`: chain a
`Result`-returning function, short-circuiting on `Err`. -/
def and_then (result : Result T E) (f : T → Result U E) : Result U E :=
  match result with
  | .Ok value => f value
  | .Err e => .Err e

/-- Loop of `collect` from `src/vicepython_core/result.py`: walk the sequence
in order with the `collected_values` accumulator; append each `Ok` payload;
on the first `Err` return it immediately (the remaining elements are never
reached). -/
def collectLoop (collected_values : List T) : List (Result T E) → Result (List T) E
  | [] => .Ok collected_values
  | result :: rest =>
    match result with
    | .Ok value => collectLoop (collected_values ++ [value]) rest
    | .Err e => .Err e

/-- Embedding of `collect` from `src/vicepython_core/result.py`: collect a
sequence of `Result`s into a single `Result` holding a list, fail-fast on the
first `Err`, with `collect [] = Ok []`. -/
def collect (results : List (Result T E)) : Result (List T) E :=
  collectLoop [] results

/-- Embedding of `map_err` from `src/vicepython_core/result.py`: apply `f` to
the error inside `Err`, leave `Ok` unchanged (the source rebuilds `Ok v`
explicitly). -/
def map_err (result : Result T E) (f : E → F) : Result T F :=
  match result with
  | .Ok v => .Ok v
  | .Err e => .Err (f e)

/-- Embedding of `discard_ok_value` from `src/vicepython_core/result.py`:
replace the `Ok` payload with the unit value (Python's `None` payload),
pass `Err` through unchanged. -/
def discard_ok_value (result : Result T E) : Result Unit E :=
  match result with
  | .Ok _ => .Ok ()
  | .Err e => .Err e

/-- Variant discriminator used to state theorems: `true` on `Ok`. -/
def is_ok : Result T E → Bool
  | .Ok _ => true
  | .Err _ => false

/-- Success payloads of a list of results, in order; used to state what
`collect` returns on an all-`Ok` input. -/
def okValues : List (Result T E) → List T
  | [] => []
  | .Ok v :: rest => v :: okValues rest
  | .Err _ :: rest => okValues rest

/-- Call-counting mirror of `map_ok`: the same match as the source, paired
with the number of times `f` is applied on the taken branch (once in the
`Ok` branch, never in the `Err` branch). -/
def map_okC (result : Result T E) (f : T → U) : Result U E × Nat :=
  match result with
  | .Ok value => (.Ok (f value), 1)
  | .Err e => (.Err e, 0)

/-- Call-counting mirror of `and_then`: `f` is applied once in the `Ok`
branch and never in the `Err` branch. -/
def and_thenC (result : Result T E) (f : T → Result U E) : Result U E × Nat :=
  match result with
  | .Ok value => (f value, 1)
  | .Err e => (.Err e, 0)

/-- Call-counting mirror of `map_err`: `f` is applied once in the `Err`
branch and never in the `Ok` branch. -/
def map_errC (result : Result T E) (f : E → F) : Result T F × Nat :=
  match result with
  | .Ok v => (.Ok v, 0)
  | .Err e => (.Err (f e), 1)

end result

namespace option

variable {T U E : Type}

/-- Embedding of `map_some` from `src/vicepython_core/option.py`: apply `f`
to the value inside `Some`, leave `Nothing` unchanged. -/
def map_some (opt : Option T) (f : T → U) : Option U :=
  match opt with
  | .Some value => .Some (f value)
  | .Nothing => .Nothing

/-- Embedding of `and_then` from `src/vicepython_core/option.py`: chain an
`Option`-returning function, short-circuiting on `Nothing`. -/
def and_then (opt : Option T) (f : T → Option U) : Option U :=
  match opt with
  | .Some value => f value
  | .Nothing => .Nothing

/-- Embedding of `option_from_optional` from `src/vicepython_core/option.py`:
`None` (the `null` constructor) maps to `Nothing`, any non-`None` value `v`
maps to `Some v`. The source tests `value is None`, which is exactly the
discrimination between the two `Optional` constructors. -/
def option_from_optional (value : Optional T) : Option T :=
  match value with
  | .null => .Nothing
  | .val v => .Some v

/-- Embedding of `require_some` from `src/vicepython_core/option.py`:
`Some v` becomes `Ok v`, `Nothing` becomes `Err err` with the caller-supplied
error. -/
def require_some (opt : Option T) (err : E) : Result T E :=
  match opt with
  | .Some value => .Ok value
  | .Nothing => .Err err

/-- Variant discriminator used to state theorems: `true` on `Some`. -/
def is_some : Option T → Bool
  | .Some _ => true
  | .Nothing => false

/-- Modelled from the spec: the repository defines no function unwrapping an
`Option` back to the nullable representation, yet the spec's round-trip
sentence ("unwrapping `Some(x)` back to nullable form recovers `x`") needs
one. Following the spec's words, `Some x` unwraps to the non-null value `x`
and `Nothing` unwraps to `None`. -/
def optional_from_option (opt : Option T) : Optional T :=
  match opt with
  | .Some value => .val value
  | .Nothing => .null

/-- Call-counting mirror of `map_some`: `f` is applied once in the `Some`
branch and never in the `Nothing` branch. -/
def map_someC (opt : Option T) (f : T → U) : Option U × Nat :=
  match opt with
  | .Some value => (.Some (f value), 1)
  | .Nothing => (.Nothing, 0)

/-- Call-counting mirror of `and_then`: `f` is applied once in the `Some`
branch and never in the `Nothing` branch. -/
def and_thenC (opt : Option T) (f : T → Option U) : Option U × Nat :=
  match opt with
  | .Some value => (f value, 1)
  | .Nothing => (.Nothing, 0)

end option

end VicePythonCore

namespace VicePythonCore

lemma collectLoop_all_ok {T E : Type} :
    ∀ (l : List (Result T E)) (acc : List T),
      (∀ r ∈ l, result.is_ok r = true) →
      result.collectLoop acc l = .Ok (acc ++ result.okValues l)
  | [], acc, _ => by simp [result.collectLoop, result.okValues]
  | .Ok v :: rest, acc, h => by
      have hrest : ∀ r ∈ rest, result.is_ok r = true := fun r hr => h r (by simp [hr])
      simp [result.collectLoop, result.okValues, collectLoop_all_ok rest (acc ++ [v]) hrest]
  | .Err e :: rest, acc, h => by
      have : result.is_ok (Result.Err e : Result T E) = true := h _ (by simp)
      simp [result.is_ok] at this

lemma collectLoop_first_err {T E : Type} :
    ∀ (pre : List (Result T E)) (acc : List T) (e : E) (suf : List (Result T E)),
      (∀ r ∈ pre, result.is_ok r = true) →
      result.collectLoop acc (pre ++ .Err e :: suf) = .Err e
  | [], acc, e, suf, _ => by simp [result.collectLoop]
  | .Ok v :: rest, acc, e, suf, h => by
      have hrest : ∀ r ∈ rest, result.is_ok r = true := fun r hr => h r (by simp [hr])
      simp [result.collectLoop, collectLoop_first_err rest (acc ++ [v]) e suf hrest]
  | .Err e0 :: rest, acc, e, suf, h => by
      have : result.is_ok (Result.Err e0 : Result T E) = true := h _ (by simp)
      simp [result.is_ok] at this

lemma okValues_length_all_ok {T E : Type} :
    ∀ (l : List (Result T E)), (∀ r ∈ l, result.is_ok r = true) →
      (result.okValues l).length = l.length
  | [], _ => rfl
  | .Ok v :: rest, h => by
      have hrest : ∀ r ∈ rest, result.is_ok r = true := fun r hr => h r (by simp [hr])
      simp [result.okValues, okValues_length_all_ok rest hrest]
  | .Err e :: rest, h => by
      have : result.is_ok (Result.Err e : Result T E) = true := h _ (by simp)
      simp [result.is_ok] at this

/-- C1: `collect` of the empty sequence is `Ok []`; on an all-`Ok` input it
returns `Ok` of all success values in order, of the same length; on an input
whose first `Err` (by position) is `Err e`, it returns exactly `Err e`, with
the error value unchanged and independently of everything after that first
`Err`. -/
theorem collect_spec (T E : Type) :
    (result.collect ([] : List (Result T E)) = .Ok []) ∧
    (∀ l : List (Result T E), (∀ r ∈ l, result.is_ok r = true) →
      result.collect l = .Ok (result.okValues l) ∧
      (result.okValues l).length = l.length) ∧
    (∀ (pre : List (Result T E)) (e : E) (suf suf' : List (Result T E)),
      (∀ r ∈ pre, result.is_ok r = true) →
      result.collect (pre ++ .Err e :: suf) = .Err e ∧
      result.collect (pre ++ .Err e :: suf) = result.collect (pre ++ .Err e :: suf')) := by
  refine ⟨rfl, fun l h => ⟨?_, okValues_length_all_ok l h⟩, fun pre e suf suf' h => ⟨?_, ?_⟩⟩
  · simpa using collectLoop_all_ok l [] h
  · exact collectLoop_first_err pre [] e suf h
  · rw [result.collect, result.collect, collectLoop_first_err pre [] e suf h,
      collectLoop_first_err pre [] e suf' h]

/-- Witness for C1 at concrete inputs: an all-`Ok` list collects to the list
of its values, and a list whose second element is the first `Err` collects to
exactly that `Err`, independently of the tail. -/
theorem collect_spec_witness :
    result.collect ([.Ok 1, .Ok 2, .Ok 3] : List (Result Nat String)) = .Ok [1, 2, 3] ∧
    result.collect ([.Ok 1, .Err "bad", .Ok 3] : List (Result Nat String)) = .Err "bad" := by
  constructor
  · have h := ((collect_spec Nat String).2.1 [.Ok 1, .Ok 2, .Ok 3] (by decide)).1
    simpa [result.okValues] using h
  · have h := ((collect_spec Nat String).2.2 [.Ok 1] "bad" [.Ok 3] [] (by decide)).1
    simpa using h

end VicePythonCore

namespace VicePythonCore

/-- C2: `map_ok (Ok v) f = Ok (f v)`; `map_ok (Err e) f = Err e` with the
error value unchanged, and on an `Err` input the output does not depend on
`f` (so `f` is never invoked). -/
theorem map_ok_spec (T U E : Type) (v : T) (e : E) (f g : T → U) :
    result.map_ok (Result.Ok v : Result T E) f = Result.Ok (f v) ∧
    result.map_ok (Result.Err e : Result T E) f = Result.Err e ∧
    result.map_ok (Result.Err e : Result T E) f =
      result.map_ok (Result.Err e : Result T E) g :=
  ⟨rfl, rfl, rfl⟩

/-- C3: `and_then` is a monadic bind: left identity
`and_then (Ok v) f = f v`, right identity `and_then r Ok = r`, and
associativity `and_then (and_then r f) g = and_then r (fun v => and_then (f v) g)`. -/
theorem and_then_monad_laws (T U V E : Type) (v : T) (r : Result T E)
    (f : T → Result U E) (g : U → Result V E) :
    result.and_then (Result.Ok v : Result T E) f = f v ∧
    result.and_then r Result.Ok = r ∧
    result.and_then (result.and_then r f) g =
      result.and_then r (fun x => result.and_then (f x) g) := by
  refine ⟨rfl, ?_, ?_⟩ <;> cases r <;> rfl

/-- C4: `map_err (Ok v) f = Ok v` with the `Ok` passed through untouched and
the output independent of `f` (so `f` is never invoked), and
`map_err (Err e) f = Err (f e)`: only the error channel is transformed. -/
theorem map_err_spec (T E F : Type) (v : T) (e : E) (f g : E → F) :
    result.map_err (Result.Ok v : Result T E) f = Result.Ok v ∧
    result.map_err (Result.Ok v : Result T E) f =
      result.map_err (Result.Ok v : Result T E) g ∧
    result.map_err (Result.Err e : Result T E) f = Result.Err (f e) :=
  ⟨rfl, rfl, rfl⟩

/-- C5: `require_some (Some v) err = Ok v` regardless of `err` (the output on
`Some v` is the same for every error value), and
`require_some Nothing err = Err err` with the caller-supplied error. -/
theorem require_some_spec (T E : Type) (v : T) (err err' : E) :
    option.require_some (Option.Some v) err = Result.Ok v ∧
    option.require_some (Option.Some v) err = option.require_some (Option.Some v) err' ∧
    option.require_some (Option.Nothing : Option T) err = Result.Err err :=
  ⟨rfl, rfl, rfl⟩

/-- C6: `option_from_optional` maps `None` to `Nothing` and every non-null
`x` to `Some x`, and the conversion round-trips: unwrapping the produced
`Some x` back to the nullable representation recovers `x`. -/
theorem option_from_optional_roundtrip (T : Type) (x : T) :
    option.option_from_optional (Optional.null : Optional T) = Option.Nothing ∧
    option.option_from_optional (Optional.val x) = Option.Some x ∧
    option.optional_from_option (option.option_from_optional (Optional.val x)) =
      Optional.val x :=
  ⟨rfl, rfl, rfl⟩

/-- C7: `discard_ok_value (Ok v) = Ok unit` regardless of the payload `v`,
and `discard_ok_value (Err e) = Err e` unchanged. -/
theorem discard_ok_value_spec (T E : Type) (v : T) (e : E) :
    result.discard_ok_value (Result.Ok v : Result T E) = Result.Ok () ∧
    result.discard_ok_value (Result.Err e : Result T E) = Result.Err e :=
  ⟨rfl, rfl⟩

/-- C9: `option_from_optional` discriminates solely on being `None`: every
non-`None` value `v` maps to `Some v` — including the falsy values `False`,
`0`, the empty string and the empty list — and the output is `Nothing`
exactly when the input is `None`. -/
theorem option_from_optional_none_only (T : Type) (v : T) :
    option.option_from_optional (Optional.val v) = Option.Some v ∧
    (∀ o : Optional T, option.option_from_optional o = Option.Nothing ↔ o = Optional.null) ∧
    option.option_from_optional (Optional.val false) = Option.Some false ∧
    option.option_from_optional (Optional.val (0 : Nat)) = Option.Some 0 ∧
    option.option_from_optional (Optional.val "") = Option.Some "" ∧
    option.option_from_optional (Optional.val ([] : List Nat)) = Option.Some [] := by
  refine ⟨rfl, ?_, rfl, rfl, rfl, rfl⟩
  intro o
  cases o <;> simp [option.option_from_optional]

/-- C10: the mapping combinators preserve the active variant: `map_ok`,
`map_err` and `discard_ok_value` keep `Ok` as `Ok` and `Err` as `Err`, and
`map_some` keeps `Some` as `Some` and `Nothing` as `Nothing`. -/
theorem variant_preservation (T U E F : Type) (r : Result T E) (opt : Option T)
    (f : T → U) (fe : E → F) :
    result.is_ok (result.map_ok r f) = result.is_ok r ∧
    result.is_ok (result.map_err r fe) = result.is_ok r ∧
    result.is_ok (result.discard_ok_value r) = result.is_ok r ∧
    option.is_some (option.map_some opt f) = option.is_some opt := by
  refine ⟨?_, ?_, ?_, ?_⟩
  · cases r <;> rfl
  · cases r <;> rfl
  · cases r <;> rfl
  · cases opt <;> rfl

lemma collectLoop_total {T E : Type} :
    ∀ (l : List (Result T E)) (acc : List T),
      (∃ vs, result.collectLoop acc l = .Ok vs) ∨ ∃ e, result.collectLoop acc l = .Err e
  | [], acc => Or.inl ⟨acc, rfl⟩
  | .Ok v :: rest, acc => by
      simpa [result.collectLoop] using collectLoop_total rest (acc ++ [v])
  | .Err e :: rest, acc => Or.inr ⟨e, rfl⟩

/-- C8: every combinator is total on well-typed input — its only failure mode
is returning the `Err`/`Nothing` variant as an ordinary value — and each
combinator taking a caller-supplied function invokes it exactly once on the
active variant and zero times on the short-circuiting variant, as witnessed
by call-counting mirrors that agree with the combinators. -/
theorem combinators_total_and_pure (T U E F : Type) (r : Result T E)
    (l : List (Result T E)) (opt : Option T) (o : Optional T) (err : E)
    (f : T → U) (fr : T → Result U E) (fe : E → F) (fo : T → Option U) :
    ((result.map_okC r f).1 = result.map_ok r f ∧
      (result.map_okC r f).2 = if result.is_ok r then 1 else 0) ∧
    ((result.and_thenC r fr).1 = result.and_then r fr ∧
      (result.and_thenC r fr).2 = if result.is_ok r then 1 else 0) ∧
    ((result.map_errC r fe).1 = result.map_err r fe ∧
      (result.map_errC r fe).2 = if result.is_ok r then 0 else 1) ∧
    ((option.map_someC opt f).1 = option.map_some opt f ∧
      (option.map_someC opt f).2 = if option.is_some opt then 1 else 0) ∧
    ((option.and_thenC opt fo).1 = option.and_then opt fo ∧
      (option.and_thenC opt fo).2 = if option.is_some opt then 1 else 0) ∧
    ((∃ u, result.map_ok r f = .Ok u) ∨ ∃ e, r = .Err e ∧ result.map_ok r f = .Err e) ∧
    ((∃ vs, result.collect l = .Ok vs) ∨ ∃ e, result.collect l = .Err e) ∧
    (result.discard_ok_value r = .Ok () ∨
      ∃ e, r = .Err e ∧ result.discard_ok_value r = .Err e) ∧
    ((∃ v, option.option_from_optional o = .Some v) ∨
      option.option_from_optional o = .Nothing) ∧
    ((∃ v, option.require_some opt err = .Ok v) ∨
      option.require_some opt err = .Err err) := by
  refine ⟨⟨?_, ?_⟩, ⟨?_, ?_⟩, ⟨?_, ?_⟩, ⟨?_, ?_⟩, ⟨?_, ?_⟩, ?_, ?_, ?_, ?_, ?_⟩
  · cases r <;> rfl
  · cases r <;> rfl
  · cases r <;> rfl
  · cases r <;> rfl
  · cases r <;> rfl
  · cases r <;> rfl
  · cases opt <;> rfl
  · cases opt <;> rfl
  · cases opt <;> rfl
  · cases opt <;> rfl
  · cases r with
    | Ok v => exact Or.inl ⟨f v, rfl⟩
    | Err e => exact Or.inr ⟨e, rfl, rfl⟩
  · exact collectLoop_total l []
  · cases r with
    | Ok v => exact Or.inl rfl
    | Err e => exact Or.inr ⟨e, rfl, rfl⟩
  · cases o with
    | null => exact Or.inr rfl
    | val v => exact Or.inl ⟨v, rfl⟩
  · cases opt with
    | Some v => exact Or.inl ⟨v, rfl⟩
    | Nothing => exact Or.inr rfl

end VicePythonCore
